import Mathlib

/-!
Shallow embedding of the LiDAR spoofing simulator repository.

The repository holds several near-duplicate variants of the same React
component.  We embed:

* variant 1 ("VSOC PRO"), the first component in src/src/lidar_spoof_sim.tsx
  (ids 1/2, vsocActive, flagged, correctedX, saturation count 15);
* variant 2 ("v2.0"), the second component in the same file
  (detectionRate metric, probabilistic noise/phantom injection);
* variant 3, src/unnamed/part_001 (applyAttack / updateMetrics over a
  realObjects/spoofedObjects pair);
* variant 4, src/unnamed/part_002 (reset with a tick counter).

JavaScript numbers are modelled as rationals; Math.random draws are passed
in as explicit inputs (a stream indexed by call position), so the embedding
is a deterministic function of state plus the random input.
-/

namespace LidarSim

/-- Object kinds: the union type of the `type` field in all variants
('relayed' appears only in variant 3/4). -/
inductive ObjKind
  | pedestrian
  | vehicle
  | obstacle
  | phantom
  | noise
  | relayed
deriving DecidableEq, Repr

/-- Object identities of the main-file variants.  JS uses the numbers 1, 2
(and `Math.random()` in variant 2), the string 'phantom', and the string
template `n-${Math.random()}` (variant 1 noise).  Distinct JS numbers print
to distinct strings, so a tagged representation keyed by the random draw is
faithful: two noise ids are equal exactly when the draws coincide. -/
inductive ObjId
  | num (q : ℚ)
  | phantomTag
  | noiseTag (r : ℚ)
deriving DecidableEq, Repr

/-- The ObjectType record of the main file (variant 1 has all fields;
variant 2 never sets flagged/correctedX, which default to absent). -/
structure SimObject where
  x : ℚ
  y : ℚ
  width : ℚ
  height : ℚ
  type : ObjKind
  id : ObjId
  hidden : Bool := false
  flagged : Bool := false
  correctedX : Option ℚ := none
deriving DecidableEq, Repr

/-- The attack selector shared by every variant. -/
inductive AttackType
  | none
  | phantom
  | hiding
  | relay
  | saturation
deriving DecidableEq, Repr

/-- Initial object list of variant 1 (useState initializer, also restored by
reset). -/
def initialObjects : List SimObject :=
  [ { x := 600, y := 280, width := 80, height := 50, type := ObjKind.vehicle,
      id := ObjId.num 1 },
    { x := 900, y := 300, width := 30, height := 60, type := ObjKind.pedestrian,
      id := ObjId.num 2 } ]

/-- Log severities (variant 1; variant 2 lacks 'success'). -/
inductive LogType
  | info
  | warning
  | alert
  | success
deriving DecidableEq, Repr

/-- A log entry; `id` is Date.now() and `timestamp` the formatted clock time,
both supplied by the caller in this embedding. -/
structure LogEntry where
  id : Int
  timestamp : String
  message : String
  type : LogType
deriving DecidableEq, Repr

/-- Variant 1 addLog: if the newest entry repeats the message the log is
returned unchanged, otherwise the new entry is prepended and the log capped
at 6 entries. -/
def addLog (message : String) (ty : LogType) (nowId : Int) (nowTs : String)
    (logs : List LogEntry) : List LogEntry :=
  if (match logs with
      | l :: _ => decide (l.message = message)
      | [] => false) then
    logs
  else
    ({ id := nowId, timestamp := nowTs, message := message, type := ty } :: logs).take 6

/-- Variant 1 risk-target computation (calculateRiskMetrics before the
smoothing step).  Returns (collisionRisk target, integrityScore target).
The JS guard `dist && dist < 120` is truthiness: null and 0 both fail it. -/
def calculateRiskTargets (attack : AttackType) (vsoc : Bool) (dist : Option ℚ) :
    ℚ × ℚ :=
  let base : ℚ × ℚ :=
    if attack = AttackType.none then
      (match dist with
       | some d => if d ≠ 0 ∧ d < 120 then (30, 100) else (5, 100)
       | none => (5, 100))
    else
      ((match attack with
        | AttackType.phantom => 80
        | AttackType.saturation => 60
        | AttackType.relay => 75
        | AttackType.hiding => 90
        | AttackType.none => 5), 40)
  if vsoc then
    ((match attack with
      | AttackType.phantom => 10
      | AttackType.saturation => 20
      | AttackType.relay => 25
      | AttackType.hiding => 40
      | AttackType.none => base.1), 98)
  else
    base

/-- The first-order low-pass update `prev + (target - prev) * 0.1` used by
every set-metric call in the main file. -/
def smooth (prev target : ℚ) : ℚ :=
  prev + (target - prev) * (1 / 10)

/-- Variant 1 calculateRiskMetrics: smooths (collisionRisk, integrityScore)
toward the targets. -/
def calculateRiskMetrics (attack : AttackType) (vsoc : Bool) (dist : Option ℚ)
    (prevRisk prevInteg : ℚ) : ℚ × ℚ :=
  let t := calculateRiskTargets attack vsoc dist
  (smooth prevRisk t.1, smooth prevInteg t.2)

/-- Variant 1, animate step 1: every object is shifted left by simSpeed and
its transient per-tick fields cleared (`flagged: false, correctedX:
undefined`). -/
def advanceStep (speed : ℚ) (o : SimObject) : SimObject :=
  { o with x := o.x - speed, flagged := false, correctedX := none }

/-- Variant 1 respawn: an object whose right edge scrolled past -200 is
teleported to `width + 100 + Math.random() * 600` and un-hidden; `r` is the
random draw for this object. -/
def respawnObj (width r : ℚ) (o : SimObject) : SimObject :=
  if o.x + o.width < -200 then
    { o with x := width + 100 + r * 600, hidden := false }
  else
    o

/-- Respawn applied along the list; `rr i` is the Math.random draw consumed
for the object at position `i`. -/
def respawnAll (width : ℚ) (rr : ℕ → ℚ) : ℕ → List SimObject → List SimObject
  | _, [] => []
  | i, o :: os => respawnObj width (rr i) o :: respawnAll width rr (i + 1) os

/-- Variant 1 saturation noise object: `(rx, ry, rid)` are the three
Math.random draws of one loop iteration; flagged is set iff VSOC is on. -/
def mkNoise (vsoc : Bool) (width : ℚ) (r : ℚ × ℚ × ℚ) : SimObject :=
  { x := r.1 * width, y := 200 + r.2.1 * 250, width := 3, height := 3,
    type := ObjKind.noise, id := ObjId.noiseTag r.2.2, flagged := vsoc }

/-- Variant 1 saturation branch: drop every existing noise object, then push
15 fresh ones. -/
def satStep (vsoc : Bool) (width : ℚ) (nr : ℕ → ℚ × ℚ × ℚ)
    (objs : List SimObject) : List SimObject :=
  objs.filter (fun o => !decide (o.type = ObjKind.noise))
    ++ (List.range 15).map (fun i => mkNoise vsoc width (nr i))

/-- The phantom object pushed by variant 1 (flagged iff VSOC is on). -/
def phantomObj (vsoc : Bool) : SimObject :=
  { x := 350, y := 280, width := 80, height := 50, type := ObjKind.phantom,
    id := ObjId.phantomTag, flagged := vsoc }

/-- Variant 1 phantom branch: inject one phantom only when none is live. -/
def phantomStep (vsoc : Bool) (objs : List SimObject) : List SimObject :=
  if objs.any (fun o => decide (o.type = ObjKind.phantom)) then
    objs
  else
    objs ++ [phantomObj vsoc]

/-- Variant 1 hiding branch: a real object inside the kill zone
`200 < x < 500` is hidden; everything else (and phantom/noise always) is
revealed; recomputed every tick. -/
def hideStep (objs : List SimObject) : List SimObject :=
  objs.map fun o =>
    { o with hidden := decide (o.type ≠ ObjKind.phantom) &&
        decide (o.type ≠ ObjKind.noise) && decide (200 < o.x) && decide (o.x < 500) }

/-- Variant 1 relay branch: every real object records its true x in
correctedX. -/
def relayStep (objs : List SimObject) : List SimObject :=
  objs.map fun o =>
    if o.type ≠ ObjKind.phantom ∧ o.type ≠ ObjKind.noise then
      { o with correctedX := some o.x }
    else
      o

/-- One running tick of variant 1's setObjects updater: move and clear
flags, respawn, then the four attack branches in source order (they are
mutually exclusive because they test the same attackType). -/
def tick (attack : AttackType) (vsoc : Bool) (speed width : ℚ)
    (rr : ℕ → ℚ) (nr : ℕ → ℚ × ℚ × ℚ) (objs : List SimObject) : List SimObject :=
  let moved := objs.map (advanceStep speed)
  let respawned := respawnAll width rr 0 moved
  let s1 := if attack = AttackType.saturation then satStep vsoc width nr respawned
            else respawned
  let s2 := if attack = AttackType.phantom then phantomStep vsoc s1 else s1
  let s3 := if attack = AttackType.hiding then hideStep s2 else s2
  if attack = AttackType.relay then relayStep s3 else s3

/-- The per-tick inputs of variant 1: UI settings plus the Math.random
draws the tick consumes. -/
structure TickInput where
  attack : AttackType
  vsoc : Bool
  speed : ℚ
  width : ℚ
  rr : ℕ → ℚ
  nr : ℕ → ℚ × ℚ × ℚ

/-- A tick driven by a TickInput record. -/
def tickI (t : TickInput) (objs : List SimObject) : List SimObject :=
  tick t.attack t.vsoc t.speed t.width t.rr t.nr objs

/-- Run a sequence of ticks; the reachable object lists of variant 1 are
exactly `runTicks ins initialObjects` (reset restores `initialObjects`; no
other code path mutates the object list). -/
def runTicks (ins : List TickInput) (objs : List SimObject) : List SimObject :=
  ins.foldl (fun acc t => tickI t acc) objs

/-- Number of live objects of a given kind. -/
def kindCount (k : ObjKind) (l : List SimObject) : ℕ :=
  l.countP (fun o => decide (o.type = k))

/-- The controller state of variant 1 that the reset handler touches or
preserves (canvas refs and the scroll offset are rendering-only). -/
structure SimState where
  isRunning : Bool
  vsocActive : Bool
  attackType : AttackType
  simSpeed : ℚ
  lidarRange : ℚ
  collisionRisk : ℚ
  integrityScore : ℚ
  objects : List SimObject
  logs : List LogEntry
deriving DecidableEq, Repr

/-- Variant 1 reset handler: stop, restore the initial objects, clear the
attack, empty the log, then immediately addLog the reset notice (the
functional setLogs updates apply in order). -/
def reset (s : SimState) (nowId : Int) (nowTs : String) : SimState :=
  { s with
    isRunning := false,
    objects := initialObjects,
    attackType := AttackType.none,
    logs := addLog ("Simulation reset. Systems nominal.") LogType.info nowId nowTs [] }

/-- Initial object list of variant 2 (useState initializer of the second
component: vehicle, pedestrian and an obstacle with id 3). -/
def initialObjectsV2 : List SimObject :=
  [ { x := 600, y := 290, width := 60, height := 40, type := ObjKind.vehicle,
      id := ObjId.num 1 },
    { x := 900, y := 280, width := 30, height := 50, type := ObjKind.pedestrian,
      id := ObjId.num 2 },
    { x := 1400, y := 310, width := 40, height := 40, type := ObjKind.obstacle,
      id := ObjId.num 3 } ]

/-- Variant 2 addLog: unlike variant 1 it has no repeated-message check —
it always prepends the new entry and caps the log at 6. -/
def addLogV2 (message : String) (ty : LogType) (nowId : Int) (nowTs : String)
    (logs : List LogEntry) : List LogEntry :=
  ({ id := nowId, timestamp := nowTs, message := message, type := ty } :: logs).take 6

/-- The controller state of variant 2 that its reset handler touches or
preserves. -/
structure SimStateB where
  isRunning : Bool
  attackType : AttackType
  detectionRate : ℚ
  collisionRisk : ℚ
  nearestObjectDist : Option ℚ
  simSpeed : ℚ
  lidarRange : ℚ
  objects : List SimObject
  logs : List LogEntry
deriving DecidableEq, Repr

/-- Variant 2 reset handler: stop, restore only two objects (the vehicle
and the pedestrian — the initializer's obstacle id 3 is not restored),
clear the attack, empty the log, then addLog the reset notice. -/
def resetV2 (s : SimStateB) (nowId : Int) (nowTs : String) : SimStateB :=
  { s with
    isRunning := false,
    objects :=
      [ { x := 600, y := 290, width := 60, height := 40, type := ObjKind.vehicle,
          id := ObjId.num 1 },
        { x := 900, y := 280, width := 30, height := 50,
          type := ObjKind.pedestrian, id := ObjId.num 2 } ],
    attackType := AttackType.none,
    logs := addLogV2 ("Simulation reset.") LogType.info nowId nowTs [] }

/-- Variant 2 risk/detection targets (calculateRiskMetrics of the second
component, before smoothing).  Returns (collisionRisk target, detectionRate
target).  `objs` is the component's objects list, read by the hiding case
for the "real danger" test. -/
def calculateRiskTargetsV2 (attack : AttackType) (dist : Option ℚ)
    (objs : List SimObject) : ℚ × ℚ :=
  let risk0 : ℚ :=
    match dist with
    | some d => if d < 100 then 90 else if d < 200 then 40 else 10
    | none => 0
  match attack with
  | AttackType.hiding =>
      (match dist with
       | none =>
           (if objs.any (fun o => decide (100 < o.x) && decide (o.x < 400)) then 95
            else risk0, 0)
       | some _ => (risk0, 100))
  | AttackType.phantom =>
      (match dist with
       | some d => if d < 150 then (80, 50) else (risk0, 100)
       | none => (risk0, 100))
  | AttackType.saturation => (60, 15)
  | AttackType.relay => (75, 60)
  | AttackType.none => (risk0, 100)

/-- Variant 2 calculateRiskMetrics: smooths (detectionRate, collisionRisk)
toward the targets with the same 0.1 factor. -/
def calculateRiskMetricsV2 (attack : AttackType) (dist : Option ℚ)
    (objs : List SimObject) (prevDet prevRisk : ℚ) : ℚ × ℚ :=
  let t := calculateRiskTargetsV2 attack dist objs
  (smooth prevDet t.2, smooth prevRisk t.1)

/-- Variant 3/4 object ids: JS mixes numbers (1, 2, 3) and strings
('p1', 'p2', `relay_${id}`, `noise_${i}`). -/
inductive IdC
  | num (n : Int)
  | str (s : String)
deriving DecidableEq, Repr

/-- JS string interpolation of an id (used by `relay_${obj.id}`). -/
def idCStr : IdC → String
  | IdC.num n => toString n
  | IdC.str s => s

/-- The SimObject record of variants 3 and 4 (`type` is a plain string
there). -/
structure SimObjC where
  x : ℚ
  y : ℚ
  width : ℚ
  height : ℚ
  type : String
  id : IdC
  hidden : Bool := false
deriving DecidableEq, Repr

/-- Initial realObjects of variants 3 and 4. -/
def initialRealV3 : List SimObjC :=
  [ { x := 400, y := 280, width := 40, height := 60, type := "pedestrian",
      id := IdC.num 1 },
    { x := 600, y := 290, width := 50, height := 50, type := "vehicle",
      id := IdC.num 2 },
    { x := 300, y := 320, width := 30, height := 30, type := "obstacle",
      id := IdC.num 3 } ]

/-- Variant 3 applyAttack (identical in variant 4): transforms the
(realObjects, spoofedObjects) pair as a function of the tick counter and
the car position; `nr i` supplies the two Math.random draws of noise
object `i` in the saturation case. -/
def applyAttackV3 (attack : AttackType) (time : ℕ) (carX : ℚ)
    (real spoofed : List SimObjC) (nr : ℕ → ℚ × ℚ) :
    List SimObjC × List SimObjC :=
  match attack with
  | AttackType.phantom =>
      if time % 60 = 0 then
        (real,
          [ { x := carX + 200, y := 280, width := 40, height := 60,
              type := "phantom", id := IdC.str "p1" },
            { x := carX + 350, y := 300, width := 50, height := 50,
              type := "phantom", id := IdC.str "p2" } ])
      else (real, spoofed)
  | AttackType.hiding =>
      if time % 5 = 0 then
        (real.map fun o => { o with hidden := decide (|o.x - carX| < 250) }, spoofed)
      else (real, spoofed)
  | AttackType.relay =>
      if time % 3 = 0 then
        (real,
          real.map fun o =>
            { o with
              x := o.x + 100, y := o.y - 50, type := "relayed",
              id := IdC.str ("relay_" ++ idCStr o.id) })
      else (real, spoofed)
  | AttackType.saturation =>
      if time % 20 = 0 then
        (real,
          (List.range 15).map fun i =>
            { x := carX + 150 + (nr i).1 * 300, y := 260 + (nr i).2 * 120,
              width := 20, height := 20, type := "noise",
              id := IdC.str ("noise_" ++ toString i) })
      else (real, spoofed)
  | AttackType.none =>
      (real.map fun o => { o with hidden := false }, [])

/-- Variant 3 updateMetrics: returns (detectionRate, collisionRisk).  The
source calls setDetectionRate / setCollisionRisk with fresh table values
plus random jitter (`r1`, `r2` are the two Math.random draws); the previous
metric values are component state but are ignored by the assignment, which
the trailing two parameters make explicit. -/
def updateMetricsV3 (attack : AttackType) (r1 r2 : ℚ)
    (prevDetection prevRisk : ℚ) : ℚ × ℚ :=
  match attack with
  | AttackType.phantom => (45 + r1 * 15, 65 + r2 * 20)
  | AttackType.hiding => (30 + r1 * 20, 85 + r2 * 10)
  | AttackType.relay => (55 + r1 * 15, 70 + r2 * 15)
  | AttackType.saturation => (25 + r1 * 15, 60 + r2 * 20)
  | AttackType.none => (95 + r1 * 5, 5 + r2 * 5)

/-- The controller state of variant 4 (part_002) that its reset handler
touches or preserves. -/
structure SimStateD where
  isRunning : Bool
  attackType : AttackType
  detectionRate : ℚ
  collisionRisk : ℚ
  time : ℕ
  carPos : ℚ × ℚ
  realObjects : List SimObjC
  spoofedObjects : List SimObjC
  carSpeed : ℚ
  lidarRange : ℚ
  mitigationScore : ℚ
deriving DecidableEq, Repr

/-- Variant 4 reset handler: stop, re-center the car, zero the tick counter,
clear spoofed objects, clear the attack, restore the initial real objects. -/
def resetV4 (s : SimStateD) : SimStateD :=
  { s with
    isRunning := false,
    carPos := (100, 300),
    time := 0,
    spoofedObjects := [],
    attackType := AttackType.none,
    realObjects := initialRealV3 }

/-- Variant 1 sensor origin (fixed within the scene). -/
def sensorX : ℚ := 120

/-- Variant 1 sensor origin y. -/
def sensorY : ℚ := 340

/-- Variant 1 per-object effective x in the ray hit test: `checkX = obj.x`,
shifted by -150 whenever a relay attack is active and the object is real.
The source consults vsocActive only for ray colours, never here. -/
def checkX (attack : AttackType) (o : SimObject) : ℚ :=
  if attack = AttackType.relay ∧ o.type ≠ ObjKind.phantom ∧ o.type ≠ ObjKind.noise
  then o.x - 150
  else o.x

/-- Modelled from the spec (§4.3 wording only, for comparison with `checkX`):
"effectiveX is the object's x shifted by a fixed visual offset when a relay
attack is active and defense is not correcting it". -/
def checkXSpec (attack : AttackType) (vsoc : Bool) (o : SimObject) : ℚ :=
  if attack = AttackType.relay ∧ vsoc = false ∧
      o.type ≠ ObjKind.phantom ∧ o.type ≠ ObjKind.noise
  then o.x - 150
  else o.x

/-- Variant 1 per-ray per-object hit test: skip hidden objects; hit when the
ray endpoint y lies inside the vertical extent and the endpoint x lies in
`(checkX, checkX + width + 20)`. -/
def rayHitsObj (attack : AttackType) (endX endY : ℚ) (o : SimObject) : Bool :=
  !o.hidden && decide (o.y < endY) && decide (endY < o.y + o.height) &&
    decide (checkX attack o < endX) && decide (endX < checkX attack o + o.width + 20)

/-- One ray of variant 1 calculateLidar.  A ray is described by the pair
`cs = (cos angle, sin angle)`; the endpoint is origin + range * direction
and `tan angle = cs.2 / cs.1`.  The first object in iteration order that
passes the hit test wins; the result is the squared Euclidean distance from
the origin to the hit point (the source takes the square root and compares
square roots, which orders identically). -/
def rayResult (attack : AttackType) (range : ℚ) (cs : ℚ × ℚ)
    (objs : List SimObject) : Option ℚ :=
  let endX := sensorX + cs.1 * range
  let endY := sensorY + cs.2 * range
  match objs.find? (rayHitsObj attack endX endY) with
  | some o =>
      let hx := max sensorX (checkX attack o)
      let hy := sensorY + (cs.2 / cs.1) * (hx - sensorX)
      some ((hx - sensorX) ^ 2 + (hy - sensorY) ^ 2)
  | none => none

/-- The loop body folding a ray's outcome into the running minimum (the
source keeps `minDist`, seeded with the sentinel 9999 and updated on
`d < minDist`; here everything is squared). -/
def lidarFold (acc : ℚ) (r : Option ℚ) : ℚ :=
  match r with
  | some d => if d < acc then d else acc
  | none => acc

/-- The squared hit distances this tick, in ray order. -/
def hitResults (attack : AttackType) (range : ℚ) (objs : List SimObject)
    (rays : List (ℚ × ℚ)) : List ℚ :=
  rays.filterMap (fun cs => rayResult attack range cs objs)

/-- Variant 1 calculateLidar: fold all rays, then map the untouched sentinel
to null.  Returns the squared minimum distance (`minDist ^ 2`). -/
def calculateLidar (attack : AttackType) (range : ℚ) (rays : List (ℚ × ℚ))
    (objs : List SimObject) : Option ℚ :=
  let m := rays.foldl (fun acc cs => lidarFold acc (rayResult attack range cs objs))
    (9999 ^ 2)
  if m = 9999 ^ 2 then none else some m

/-- The running-minimum loop of calculateLidar, abstracted over the list of
per-ray squared hit distances. -/
def minFold (l : List ℚ) (acc : ℚ) : ℚ :=
  l.foldl (fun a d => if d < a then d else a) acc

/-- Whether an id is a variant-1 noise id (`n-${...}`). -/
def idIsNoiseTag : ObjId → Bool
  | ObjId.noiseTag _ => true
  | _ => false

/-- The per-object part of the §8 invariant: positive extent, and the id
namespace agrees with the kind (noise-style ids only on noise objects, the
'phantom' id only on the phantom). -/
def GoodObj (o : SimObject) : Prop :=
  0 < o.width ∧ 0 < o.height ∧
  (idIsNoiseTag o.id = true → o.type = ObjKind.noise) ∧
  (o.id = ObjId.phantomTag → o.type = ObjKind.phantom)

instance : DecidablePred GoodObj := fun o => by
  unfold GoodObj
  infer_instance

/-- The §8 object-list invariant: no duplicate ids among live objects, and
every live object is well formed. -/
def WF (l : List SimObject) : Prop :=
  (l.map (fun o => o.id)).Nodup ∧ ∀ o ∈ l, GoodObj o

/-- The extent part of the §8 invariant on its own: every live object has
positive width and height (this holds with no assumption on the random
draws, since every constructed object has constant positive extents). -/
def ExtOK (l : List SimObject) : Prop :=
  ∀ o ∈ l, 0 < o.width ∧ 0 < o.height

/-- The saturation-tick noise id draws are pairwise distinct (the property
of Math.random the id-uniqueness invariant relies on). -/
def DrawsDistinct (t : TickInput) : Prop :=
  ∀ i j : ℕ, i < 15 → j < 15 → i ≠ j → (t.nr i).2.2 ≠ (t.nr j).2.2

/-- The first initial object (used as a concrete sample input). -/
def vehicle0 : SimObject :=
  { x := 600, y := 280, width := 80, height := 50, type := ObjKind.vehicle,
    id := ObjId.num 1 }

/-- A concrete pedestrian placed ahead of the sensor (sample input). -/
def pedObj : SimObject :=
  { x := 300, y := 300, width := 30, height := 60, type := ObjKind.pedestrian,
    id := ObjId.num 7 }

/-- A concrete log entry (sample input). -/
def logEntryA : LogEntry :=
  { id := 1, timestamp := "t0", message := "ATTACK", type := LogType.info }

/-- A concrete mid-run controller state (sample input). -/
def midRunState : SimState :=
  { isRunning := true, vsocActive := true, attackType := AttackType.phantom,
    simSpeed := 4, lidarRange := 400, collisionRisk := 50, integrityScore := 60,
    objects := [phantomObj true],
    logs := [logEntryA] }

/-- A concrete mid-run variant 2 controller state (sample input). -/
def midRunStateB : SimStateB :=
  { isRunning := true, attackType := AttackType.saturation, detectionRate := 40,
    collisionRisk := 70, nearestObjectDist := some 150, simSpeed := 4,
    lidarRange := 350, objects := initialObjectsV2, logs := [logEntryA] }

/-- A concrete one-tick saturation run whose noise id draws are pairwise
distinct (sample input). -/
def wfIns : List TickInput :=
  [{ attack := AttackType.saturation, vsoc := false, speed := 4, width := 800,
     rr := fun _ => 0, nr := fun i => (0, 0, (i : ℚ)) }]

/-! ## Theorems -/

/-- C1: for every attack mode other than none and any minDistance input,
the collisionRisk target with defense enabled is strictly below the target
with defense disabled, and the integrityScore target with defense enabled
is strictly above it. -/
theorem defense_strictly_improves_targets (attack : AttackType) (dist : Option ℚ)
    (h : attack ≠ AttackType.none) :
    (calculateRiskTargets attack true dist).1 < (calculateRiskTargets attack false dist).1 ∧
    (calculateRiskTargets attack false dist).2 < (calculateRiskTargets attack true dist).2 := by
  cases attack <;> simp [calculateRiskTargets] at h ⊢ <;> norm_num

/-- Witness for C1 at attack = phantom, dist = null. -/
theorem defense_strictly_improves_targets_witness :
    AttackType.phantom ≠ AttackType.none ∧
    ((calculateRiskTargets AttackType.phantom true none).1 <
        (calculateRiskTargets AttackType.phantom false none).1 ∧
      (calculateRiskTargets AttackType.phantom false none).2 <
        (calculateRiskTargets AttackType.phantom true none).2) :=
  ⟨by decide, defense_strictly_improves_targets AttackType.phantom none (by decide)⟩

/-- C2 (amended): in both lidar_spoof_sim.tsx variants every metrics update
is the low-pass step `next = prev + (target - prev) * 0.1`; equivalently the
new deviation from the target is exactly 9/10 of the previous deviation, for
every metric, on every call, with the same constant factor. -/
theorem metrics_update_is_low_pass (attack : AttackType) (vsoc : Bool)
    (dist : Option ℚ) (objs : List SimObject) (pRisk pInteg pDet : ℚ) :
    ((calculateRiskMetrics attack vsoc dist pRisk pInteg).1
        - (calculateRiskTargets attack vsoc dist).1
      = (9 / 10) * (pRisk - (calculateRiskTargets attack vsoc dist).1)) ∧
    ((calculateRiskMetrics attack vsoc dist pRisk pInteg).2
        - (calculateRiskTargets attack vsoc dist).2
      = (9 / 10) * (pInteg - (calculateRiskTargets attack vsoc dist).2)) ∧
    ((calculateRiskMetricsV2 attack dist objs pDet pRisk).1
        - (calculateRiskTargetsV2 attack dist objs).2
      = (9 / 10) * (pDet - (calculateRiskTargetsV2 attack dist objs).2)) ∧
    ((calculateRiskMetricsV2 attack dist objs pDet pRisk).2
        - (calculateRiskTargetsV2 attack dist objs).1
      = (9 / 10) * (pRisk - (calculateRiskTargetsV2 attack dist objs).1)) := by
  refine ⟨?_, ?_, ?_, ?_⟩ <;>
    simp only [calculateRiskMetrics, calculateRiskMetricsV2, smooth] <;> ring

/-- Counterexample for C2: variant 3's updateMetrics assigns the detection
metric a fresh table value that ignores the previous value, so no fixed
target can make it the smoothing update for every previous value. -/
theorem updateMetricsV3_not_smoothed :
    ¬ ∃ t : ℚ, ∀ prev : ℚ,
        (updateMetricsV3 AttackType.phantom 0 0 prev 0).1 = smooth prev t := by
  rintro ⟨t, h⟩
  have h0 := h 0
  have h1 := h 100
  simp [updateMetricsV3, smooth] at h0 h1
  linarith

/-- C5 (amended): every reset stops the run, clears the attack, and leaves
the event log holding exactly the single reset notification (the log is
emptied and then the log helper appends).  Variant 1 restores exactly its
documented initial object list; variant 2 restores only the first two of
its three initializer objects, dropping the obstacle with id 3; variant 4
additionally zeroes the tick counter and clears the spoofed objects. -/
theorem reset_spec (s : SimState) (b : SimStateB) (d : SimStateD)
    (nowId : Int) (nowTs : String) :
    (reset s nowId nowTs).isRunning = false ∧
    (reset s nowId nowTs).objects = initialObjects ∧
    (reset s nowId nowTs).attackType = AttackType.none ∧
    (reset s nowId nowTs).logs =
      [{ id := nowId, timestamp := nowTs,
         message := "Simulation reset. Systems nominal.", type := LogType.info }] ∧
    (resetV2 b nowId nowTs).isRunning = false ∧
    (resetV2 b nowId nowTs).objects = initialObjectsV2.take 2 ∧
    (resetV2 b nowId nowTs).attackType = AttackType.none ∧
    (resetV2 b nowId nowTs).logs =
      [{ id := nowId, timestamp := nowTs,
         message := "Simulation reset.", type := LogType.info }] ∧
    (resetV4 d).isRunning = false ∧
    (resetV4 d).time = 0 ∧
    (resetV4 d).attackType = AttackType.none ∧
    (resetV4 d).spoofedObjects = [] ∧
    (resetV4 d).realObjects = initialRealV3 :=
  ⟨rfl, rfl, rfl, rfl, rfl, rfl, rfl, rfl, rfl, rfl, rfl, rfl, rfl⟩

/-- Counterexample for C5: invoking variant 1 reset from a mid-run state
yields a log with one entry, not the empty log the claim asserts; and
variant 2 reset restores a 2-element object list that differs from its
3-element documented initial set. -/
theorem reset_log_nonempty :
    (reset midRunState 0 "12:00:00").logs ≠ [] ∧
    (reset midRunState 0 "12:00:00").logs.length = 1 ∧
    (resetV2 midRunStateB 0 "12:00:00").objects ≠ initialObjectsV2 ∧
    (resetV2 midRunStateB 0 "12:00:00").objects.length = 2 ∧
    initialObjectsV2.length = 3 := by
  refine ⟨by decide, by decide, ?_, rfl, rfl⟩
  intro h
  have h2 := congrArg List.length h
  simp [resetV2, initialObjectsV2] at h2

/-- C6: with phantom attack and defense enabled, the tick that creates the
phantom leaves it flagged, but the very next tick resets flagged to false
and no code re-flags the existing phantom — contradicting the defense
contract that every live phantom is flagged each tick. -/
theorem phantom_flag_lost_after_second_tick :
    ((tick AttackType.phantom true 4 800 (fun _ => 0) (fun _ => (0, 0, 0))
          initialObjects).filter
        (fun o => decide (o.type = ObjKind.phantom))).map (fun o => o.flagged)
      = [true] ∧
    ((tick AttackType.phantom true 4 800 (fun _ => 0) (fun _ => (0, 0, 0))
          (tick AttackType.phantom true 4 800 (fun _ => 0) (fun _ => (0, 0, 0))
            initialObjects)).filter
        (fun o => decide (o.type = ObjKind.phantom))).map (fun o => o.flagged)
      = [false] := by
  constructor <;>
    norm_num +decide [tick, advanceStep, respawnAll, respawnObj, satStep, mkNoise,
      phantomStep, phantomObj, hideStep, relayStep, initialObjects]

/-- C7 (amended): in the ray hit test the effective x of a real object is
x - 150 whenever a relay attack is active, independent of the defense flag
(the source never consults vsocActive there), and equals the stored x in
every other attack mode. -/
theorem checkX_relay_always_shifts (o : SimObject)
    (h1 : o.type ≠ ObjKind.phantom) (h2 : o.type ≠ ObjKind.noise) :
    checkX AttackType.relay o = o.x - 150 ∧
    ∀ a : AttackType, a ≠ AttackType.relay → checkX a o = o.x := by
  constructor
  · simp [checkX, h1, h2]
  · intro a ha
    simp [checkX, ha]

/-- Witness for C7's amended statement at the initial vehicle object. -/
theorem checkX_relay_always_shifts_witness :
    vehicle0.type ≠ ObjKind.phantom ∧ vehicle0.type ≠ ObjKind.noise ∧
    checkX AttackType.relay vehicle0 = vehicle0.x - 150 :=
  ⟨by decide, by decide,
    (checkX_relay_always_shifts vehicle0 (by decide) (by decide)).1⟩

/-- Counterexample for C7: with relay active and defense enabled the hit
test still uses the shifted x, whereas the spec-worded effectiveX uses the
true x. -/
theorem checkX_shift_despite_defense :
    checkX AttackType.relay vehicle0 = vehicle0.x - 150 ∧
    checkXSpec AttackType.relay true vehicle0 = vehicle0.x ∧
    checkX AttackType.relay vehicle0 ≠ checkXSpec AttackType.relay true vehicle0 := by
  norm_num +decide [checkX, checkXSpec, vehicle0]

/-- C10: addLog returns the log unchanged whenever the newest entry carries
the same message (regardless of the new entry's severity), and prepends a
fresh capped entry exactly when the message differs. -/
theorem addLog_idempotent_on_repeat (e : LogEntry) (rest : List LogEntry)
    (msg : String) (ty : LogType) (nid : Int) (ts : String) :
    (e.message = msg → addLog msg ty nid ts (e :: rest) = e :: rest) ∧
    (e.message ≠ msg →
      addLog msg ty nid ts (e :: rest) =
        ({ id := nid, timestamp := ts, message := msg, type := ty } :: e :: rest).take 6) := by
  constructor
  · intro h
    simp [addLog, h]
  · intro h
    simp [addLog, h]

/-- Witness for C10: a repeated message with a different severity leaves the
log untouched; a fresh message prepends. -/
theorem addLog_idempotent_on_repeat_witness :
    (logEntryA.message = "ATTACK" ∧
      addLog ("ATTACK") LogType.alert 5 "t1" [logEntryA] = [logEntryA]) ∧
    (logEntryA.message ≠ "OTHER" ∧
      addLog ("OTHER") LogType.alert 5 "t1" [logEntryA] =
        ({ id := 5, timestamp := "t1", message := "OTHER", type := LogType.alert }
          :: [logEntryA]).take 6) :=
  ⟨⟨rfl, (addLog_idempotent_on_repeat logEntryA [] ("ATTACK") LogType.alert 5 "t1").1 rfl⟩,
   ⟨by decide, (addLog_idempotent_on_repeat logEntryA [] ("OTHER") LogType.alert 5 "t1").2
      (by decide)⟩⟩

/-! ### Helper lemmas about kind counts -/

theorem respawnObj_type (w r : ℚ) (o : SimObject) : (respawnObj w r o).type = o.type := by
  unfold respawnObj
  split <;> rfl

theorem kindCount_map_eq (f : SimObject → SimObject) (hf : ∀ o, (f o).type = o.type)
    (k : ObjKind) (l : List SimObject) : kindCount k (l.map f) = kindCount k l := by
  unfold kindCount
  rw [List.countP_map]
  exact List.countP_congr fun x _ => by simp [hf x]

theorem kindCount_respawnAll (w : ℚ) (rr : ℕ → ℚ) (k : ObjKind) :
    ∀ (i : ℕ) (l : List SimObject), kindCount k (respawnAll w rr i l) = kindCount k l := by
  intro i l
  induction l generalizing i with
  | nil => rfl
  | cons o os ih =>
      unfold respawnAll kindCount
      rw [List.countP_cons, List.countP_cons, respawnObj_type]
      unfold kindCount at ih
      rw [ih]

theorem kindCount_phantom_satStep (v : Bool) (w : ℚ) (nr : ℕ → ℚ × ℚ × ℚ)
    (l : List SimObject) :
    kindCount ObjKind.phantom (satStep v w nr l) ≤ kindCount ObjKind.phantom l := by
  unfold satStep kindCount
  rw [List.countP_append, List.countP_filter, List.countP_map]
  have h2 : List.countP
      ((fun o => decide (o.type = ObjKind.phantom)) ∘ fun i => mkNoise v w (nr i))
      (List.range 15) = 0 := by
    apply List.countP_eq_zero.mpr
    intro a _
    simp [mkNoise]
  rw [h2, Nat.add_zero]
  exact List.countP_mono_left fun x _ h => by
    simp only [Bool.and_eq_true] at h
    exact h.1

theorem kindCount_phantomStep (v : Bool) (l : List SimObject)
    (h : kindCount ObjKind.phantom l ≤ 1) :
    kindCount ObjKind.phantom (phantomStep v l) ≤ 1 := by
  unfold phantomStep
  split
  · exact h
  · rename_i hany
    have h0 : List.countP (fun o => decide (o.type = ObjKind.phantom)) l = 0 := by
      apply List.countP_eq_zero.mpr
      intro a ha hpa
      exact hany (List.any_eq_true.mpr ⟨a, ha, hpa⟩)
    unfold kindCount
    rw [List.countP_append, h0]
    simp [phantomObj]

theorem kindCount_hideStep (k : ObjKind) (l : List SimObject) :
    kindCount k (hideStep l) = kindCount k l := by
  unfold hideStep kindCount
  rw [List.countP_map]
  exact List.countP_congr fun x _ => Iff.rfl

theorem kindCount_relayStep (k : ObjKind) (l : List SimObject) :
    kindCount k (relayStep l) = kindCount k l := by
  unfold relayStep kindCount
  rw [List.countP_map]
  refine List.countP_congr fun x _ => ?_
  have hx : ((if x.type ≠ ObjKind.phantom ∧ x.type ≠ ObjKind.noise then
      { x with correctedX := some x.x } else x) : SimObject).type = x.type := by
    split <;> rfl
  simp only [Function.comp_apply, hx]

theorem kindCount_phantom_tickI (t : TickInput) (l : List SimObject)
    (h : kindCount ObjKind.phantom l ≤ 1) :
    kindCount ObjKind.phantom (tickI t l) ≤ 1 := by
  obtain ⟨atk, vs, sp, w, rr, nr⟩ := t
  have hbase : kindCount ObjKind.phantom
      (respawnAll w rr 0 ((l.map (advanceStep sp)))) ≤ 1 := by
    rw [kindCount_respawnAll, kindCount_map_eq (advanceStep sp) (fun o => rfl)]
    exact h
  cases atk
  · exact hbase
  · exact kindCount_phantomStep _ _ hbase
  · show kindCount ObjKind.phantom
      (hideStep (respawnAll w rr 0 (l.map (advanceStep sp)))) ≤ 1
    rw [kindCount_hideStep]
    exact hbase
  · show kindCount ObjKind.phantom
      (relayStep (respawnAll w rr 0 (l.map (advanceStep sp)))) ≤ 1
    rw [kindCount_relayStep]
    exact hbase
  · exact le_trans (kindCount_phantom_satStep _ _ _ _) hbase

theorem runTicks_phantom_le (ins : List TickInput) :
    ∀ l, kindCount ObjKind.phantom l ≤ 1 →
      kindCount ObjKind.phantom (runTicks ins l) ≤ 1 := by
  induction ins with
  | nil => exact fun l h => h
  | cons t ts ih => exact fun l h => ih _ (kindCount_phantom_tickI t l h)

/-- C3 (amended, variant 1): the phantom branch injects exactly one phantom
when none is live and leaves the list unchanged otherwise, and every object
list reachable from the initial scene by any tick sequence carries at most
one live phantom.  (Variant 3 instead replaces the spoofed set with two
phantoms, see the counterexample.) -/
theorem phantom_at_most_one :
    (∀ (vsoc : Bool) (objs : List SimObject),
      (objs.any (fun o => decide (o.type = ObjKind.phantom)) = false →
        phantomStep vsoc objs = objs ++ [phantomObj vsoc]) ∧
      (objs.any (fun o => decide (o.type = ObjKind.phantom)) = true →
        phantomStep vsoc objs = objs)) ∧
    (∀ ins : List TickInput,
      kindCount ObjKind.phantom (runTicks ins initialObjects) ≤ 1) := by
  constructor
  · intro vsoc objs
    constructor
    · intro h
      unfold phantomStep
      rw [h]
      rfl
    · intro h
      unfold phantomStep
      rw [h]
      rfl
  · intro ins
    apply runTicks_phantom_le
    decide

/-- Witness for C3's amended statement: the first phantom tick injects
exactly one phantom into the initial scene. -/
theorem phantom_at_most_one_witness :
    initialObjects.any (fun o => decide (o.type = ObjKind.phantom)) = false ∧
    phantomStep true initialObjects = initialObjects ++ [phantomObj true] :=
  ⟨by decide, (phantom_at_most_one.1 true initialObjects).1 (by decide)⟩

/-- Counterexample for C3: variant 3's phantom transform, fired from a state
with no live phantom, injects two phantom objects at once. -/
theorem applyAttackV3_two_phantoms :
    ((applyAttackV3 AttackType.phantom 0 100 initialRealV3 [] (fun _ => (0, 0))).2.countP
        (fun o => decide (o.type = "phantom"))) = 2 := by
  norm_num +decide [applyAttackV3, initialRealV3]

/-! ### C4: saturation noise count -/

theorem satStep_noise_filter (v : Bool) (w : ℚ) (nr : ℕ → ℚ × ℚ × ℚ)
    (l : List SimObject) :
    (satStep v w nr l).filter (fun o => decide (o.type = ObjKind.noise)) =
      (List.range 15).map (fun i => mkNoise v w (nr i)) := by
  unfold satStep
  rw [List.filter_append, List.filter_filter]
  have h1 : (l.filter fun a =>
      decide (a.type = ObjKind.noise) && !decide (a.type = ObjKind.noise)) = [] := by
    simp
  have h2 : ((List.range 15).map (fun i => mkNoise v w (nr i))).filter
      (fun o => decide (o.type = ObjKind.noise)) =
      (List.range 15).map (fun i => mkNoise v w (nr i)) := by
    apply List.filter_eq_self.mpr
    intro a ha
    obtain ⟨i, _, rfl⟩ := List.mem_map.mp ha
    rfl
  rw [h1, h2, List.nil_append]

/-- C4 (amended, variant 1): after every saturation tick the live noise set
is exactly the 15 freshly generated noise objects — every pre-existing noise
object is discarded, whatever the previous count.  (Variant 3 regenerates
only every 20th tick, see the counterexample.) -/
theorem saturation_tick_noise_count (vsoc : Bool) (speed width : ℚ)
    (rr : ℕ → ℚ) (nr : ℕ → ℚ × ℚ × ℚ) (objs : List SimObject) :
    kindCount ObjKind.noise (tick AttackType.saturation vsoc speed width rr nr objs)
      = 15 ∧
    (tick AttackType.saturation vsoc speed width rr nr objs).filter
        (fun o => decide (o.type = ObjKind.noise))
      = (List.range 15).map (fun i => mkNoise vsoc width (nr i)) := by
  have key := satStep_noise_filter vsoc width nr
    (respawnAll width rr 0 (objs.map (advanceStep speed)))
  constructor
  · show kindCount ObjKind.noise
      (satStep vsoc width nr (respawnAll width rr 0 (objs.map (advanceStep speed)))) = 15
    unfold kindCount
    rw [List.countP_eq_length_filter, key]
    simp
  · show (satStep vsoc width nr
        (respawnAll width rr 0 (objs.map (advanceStep speed)))).filter
        (fun o => decide (o.type = ObjKind.noise))
      = (List.range 15).map (fun i => mkNoise vsoc width (nr i))
    exact key

/-- Counterexample for C4: variant 3's saturation transform on a tick where
`time % 20 ≠ 0` leaves the spoofed set untouched — here zero noise objects
survive the transform, not 15. -/
theorem applyAttackV3_saturation_offtick :
    ((applyAttackV3 AttackType.saturation 1 100 initialRealV3 [] (fun _ => (0, 0))).2.countP
        (fun o => decide (o.type = "noise"))) = 0 := by
  norm_num +decide [applyAttackV3, initialRealV3]

/-! ### C8: object-list well-formedness -/

theorem GoodObj_of_fields {a b : SimObject} (hid : b.id = a.id) (hty : b.type = a.type)
    (hw : b.width = a.width) (hh : b.height = a.height) (h : GoodObj a) : GoodObj b := by
  unfold GoodObj at *
  rw [hid, hty, hw, hh]
  exact h

theorem WF_map (f : SimObject → SimObject)
    (hf : ∀ o, (f o).id = o.id ∧ (f o).type = o.type ∧
      (f o).width = o.width ∧ (f o).height = o.height)
    {l : List SimObject} (h : WF l) : WF (l.map f) := by
  obtain ⟨hn, hg⟩ := h
  constructor
  · rw [List.map_map]
    have he : ((fun o : SimObject => o.id) ∘ f) = fun o : SimObject => o.id :=
      funext fun o => (hf o).1
    rw [he]
    exact hn
  · intro o ho
    obtain ⟨a, ha, rfl⟩ := List.mem_map.mp ho
    exact GoodObj_of_fields (hf a).1 (hf a).2.1 (hf a).2.2.1 (hf a).2.2.2 (hg a ha)

theorem respawnObj_id (w r : ℚ) (o : SimObject) : (respawnObj w r o).id = o.id := by
  unfold respawnObj
  split <;> rfl

theorem respawnObj_width (w r : ℚ) (o : SimObject) :
    (respawnObj w r o).width = o.width := by
  unfold respawnObj
  split <;> rfl

theorem respawnObj_height (w r : ℚ) (o : SimObject) :
    (respawnObj w r o).height = o.height := by
  unfold respawnObj
  split <;> rfl

theorem respawnAll_map_id (w : ℚ) (rr : ℕ → ℚ) :
    ∀ (i : ℕ) (l : List SimObject),
      (respawnAll w rr i l).map (fun o => o.id) = l.map (fun o => o.id) := by
  intro i l
  induction l generalizing i with
  | nil => rfl
  | cons o os ih =>
      unfold respawnAll
      simp only [List.map_cons, respawnObj_id, ih]

theorem mem_respawnAll {w : ℚ} {rr : ℕ → ℚ} :
    ∀ {i : ℕ} {l : List SimObject} {o : SimObject},
      o ∈ respawnAll w rr i l → ∃ a ∈ l, ∃ r, o = respawnObj w r a := by
  intro i l
  induction l generalizing i with
  | nil => intro o ho; cases ho
  | cons a as ih =>
      intro o ho
      unfold respawnAll at ho
      rcases List.mem_cons.mp ho with h1 | h2
      · exact ⟨a, List.mem_cons_self a as, rr i, h1⟩
      · obtain ⟨b, hb, r, rfl⟩ := ih h2
        exact ⟨b, List.mem_cons_of_mem a hb, r, rfl⟩

theorem WF_respawnAll (w : ℚ) (rr : ℕ → ℚ) (i : ℕ) {l : List SimObject}
    (h : WF l) : WF (respawnAll w rr i l) := by
  constructor
  · rw [respawnAll_map_id]
    exact h.1
  · intro o ho
    obtain ⟨a, ha, r, rfl⟩ := mem_respawnAll ho
    exact GoodObj_of_fields (respawnObj_id w r a) (respawnObj_type w r a)
      (respawnObj_width w r a) (respawnObj_height w r a) (h.2 a ha)

theorem WF_satStep (v : Bool) (w : ℚ) (nr : ℕ → ℚ × ℚ × ℚ) {l : List SimObject}
    (h : WF l)
    (hd : ∀ i j : ℕ, i < 15 → j < 15 → i ≠ j → (nr i).2.2 ≠ (nr j).2.2) :
    WF (satStep v w nr l) := by
  obtain ⟨hn, hg⟩ := h
  constructor
  · unfold satStep
    rw [List.map_append, List.map_map]
    apply List.nodup_append.mpr
    refine ⟨?_, ?_, ?_⟩
    · exact List.Nodup.sublist
        (List.Sublist.map _ (List.filter_sublist l)) hn
    · refine List.Nodup.map_on ?_ (List.nodup_range 15)
      intro x hx y hy hxy
      by_contra hne
      have hinj : (nr x).2.2 = (nr y).2.2 := by
        have : ObjId.noiseTag (nr x).2.2 = ObjId.noiseTag (nr y).2.2 := hxy
        exact ObjId.noiseTag.inj this
      exact hd x y (List.mem_range.mp hx) (List.mem_range.mp hy) hne hinj
    · intro a ha hb
      obtain ⟨o, ho, rfl⟩ := List.mem_map.mp ha
      obtain ⟨i, hi, heq⟩ := List.mem_map.mp hb
      have hof := List.mem_filter.mp ho
      have hnoise : o.type = ObjKind.noise := by
        refine (hg o hof.1).2.2.1 ?_
        rw [← heq]
        rfl
      simp [hnoise] at hof
  · intro o ho
    unfold satStep at ho
    rcases List.mem_append.mp ho with h1 | h2
    · exact hg o (List.mem_filter.mp h1).1
    · obtain ⟨i, _, rfl⟩ := List.mem_map.mp h2
      refine ⟨by norm_num [mkNoise], by norm_num [mkNoise], fun _ => rfl, ?_⟩
      intro hcontra
      simp [mkNoise] at hcontra

theorem WF_phantomStep (v : Bool) {l : List SimObject} (h : WF l) :
    WF (phantomStep v l) := by
  obtain ⟨hn, hg⟩ := h
  unfold phantomStep
  split
  · exact ⟨hn, hg⟩
  · rename_i hany
    constructor
    · rw [List.map_append]
      apply List.nodup_append.mpr
      refine ⟨hn, List.nodup_singleton _, ?_⟩
      intro a ha hb
      obtain ⟨o, ho, rfl⟩ := List.mem_map.mp ha
      have hb2 : o.id = ObjId.phantomTag := by
        simpa [phantomObj] using hb
      have hph : o.type = ObjKind.phantom := (hg o ho).2.2.2 hb2
      exact hany (List.any_eq_true.mpr ⟨o, ho, by simp [hph]⟩)
    · intro o ho
      rcases List.mem_append.mp ho with h1 | h2
      · exact hg o h1
      · have : o = phantomObj v := by simpa using h2
        subst this
        refine ⟨by norm_num [phantomObj], by norm_num [phantomObj], ?_, fun _ => rfl⟩
        intro hx
        simp [phantomObj, idIsNoiseTag] at hx

theorem WF_hideStep {l : List SimObject} (h : WF l) : WF (hideStep l) := by
  unfold hideStep
  apply WF_map
  · exact fun o => ⟨rfl, rfl, rfl, rfl⟩
  · exact h

theorem WF_relayStep {l : List SimObject} (h : WF l) : WF (relayStep l) := by
  unfold relayStep
  apply WF_map
  · intro o
    refine ⟨?_, ?_, ?_, ?_⟩ <;> (split <;> rfl)
  · exact h

theorem WF_tickI (t : TickInput) (hd : DrawsDistinct t) {l : List SimObject}
    (h : WF l) : WF (tickI t l) := by
  obtain ⟨atk, vs, sp, w, rr, nr⟩ := t
  have hd : ∀ i j : ℕ, i < 15 → j < 15 → i ≠ j → (nr i).2.2 ≠ (nr j).2.2 := hd
  have hbase : WF (respawnAll w rr 0 (l.map (advanceStep sp))) :=
    WF_respawnAll w rr 0 (WF_map (advanceStep sp) (fun o => ⟨rfl, rfl, rfl, rfl⟩) h)
  cases atk
  · exact hbase
  · exact WF_phantomStep vs hbase
  · show WF (hideStep (respawnAll w rr 0 (l.map (advanceStep sp))))
    exact WF_hideStep hbase
  · show WF (relayStep (respawnAll w rr 0 (l.map (advanceStep sp))))
    exact WF_relayStep hbase
  · exact WF_satStep vs w nr hbase hd

theorem runTicks_WF :
    ∀ (ins : List TickInput) (l : List SimObject),
      (∀ t ∈ ins, DrawsDistinct t) → WF l → WF (runTicks ins l) := by
  intro ins
  induction ins with
  | nil => exact fun l _ h => h
  | cons t ts ih =>
      intro l hds h
      exact ih _ (fun u hu => hds u (List.mem_cons_of_mem t hu))
        (WF_tickI t (hds t (List.mem_cons_self t ts)) h)

theorem WF_initialObjects : WF initialObjects := by
  constructor
  · norm_num +decide [initialObjects]
  · intro o ho
    simp only [initialObjects, List.mem_cons, List.not_mem_nil, or_false] at ho
    rcases ho with rfl | rfl <;>
      exact ⟨by norm_num, by norm_num, fun hx => by simp [idIsNoiseTag] at hx,
        fun hx => by simp at hx⟩

theorem ExtOK_map (f : SimObject → SimObject)
    (hf : ∀ o, (f o).width = o.width ∧ (f o).height = o.height)
    {l : List SimObject} (h : ExtOK l) : ExtOK (l.map f) := by
  intro o ho
  obtain ⟨a, ha, rfl⟩ := List.mem_map.mp ho
  rw [(hf a).1, (hf a).2]
  exact h a ha

theorem ExtOK_respawnAll (w : ℚ) (rr : ℕ → ℚ) (i : ℕ) {l : List SimObject}
    (h : ExtOK l) : ExtOK (respawnAll w rr i l) := by
  intro o ho
  obtain ⟨a, ha, r, rfl⟩ := mem_respawnAll ho
  rw [respawnObj_width, respawnObj_height]
  exact h a ha

theorem ExtOK_satStep (v : Bool) (w : ℚ) (nr : ℕ → ℚ × ℚ × ℚ)
    {l : List SimObject} (h : ExtOK l) : ExtOK (satStep v w nr l) := by
  intro o ho
  unfold satStep at ho
  rcases List.mem_append.mp ho with h1 | h2
  · exact h o (List.mem_filter.mp h1).1
  · obtain ⟨i, _, rfl⟩ := List.mem_map.mp h2
    exact ⟨by norm_num [mkNoise], by norm_num [mkNoise]⟩

theorem ExtOK_phantomStep (v : Bool) {l : List SimObject} (h : ExtOK l) :
    ExtOK (phantomStep v l) := by
  unfold phantomStep
  split
  · exact h
  · intro o ho
    rcases List.mem_append.mp ho with h1 | h2
    · exact h o h1
    · have : o = phantomObj v := by simpa using h2
      subst this
      exact ⟨by norm_num [phantomObj], by norm_num [phantomObj]⟩

theorem ExtOK_hideStep {l : List SimObject} (h : ExtOK l) : ExtOK (hideStep l) := by
  unfold hideStep
  apply ExtOK_map
  · exact fun o => ⟨rfl, rfl⟩
  · exact h

theorem ExtOK_relayStep {l : List SimObject} (h : ExtOK l) : ExtOK (relayStep l) := by
  unfold relayStep
  apply ExtOK_map
  · intro o
    refine ⟨?_, ?_⟩ <;> (split <;> rfl)
  · exact h

theorem ExtOK_tickI (t : TickInput) {l : List SimObject} (h : ExtOK l) :
    ExtOK (tickI t l) := by
  obtain ⟨atk, vs, sp, w, rr, nr⟩ := t
  have hbase : ExtOK (respawnAll w rr 0 (l.map (advanceStep sp))) :=
    ExtOK_respawnAll w rr 0 (ExtOK_map (advanceStep sp) (fun o => ⟨rfl, rfl⟩) h)
  cases atk
  · exact hbase
  · exact ExtOK_phantomStep vs hbase
  · show ExtOK (hideStep (respawnAll w rr 0 (l.map (advanceStep sp))))
    exact ExtOK_hideStep hbase
  · show ExtOK (relayStep (respawnAll w rr 0 (l.map (advanceStep sp))))
    exact ExtOK_relayStep hbase
  · exact ExtOK_satStep vs w nr hbase

theorem runTicks_ExtOK :
    ∀ (ins : List TickInput) (l : List SimObject),
      ExtOK l → ExtOK (runTicks ins l) := by
  intro ins
  induction ins with
  | nil => exact fun l h => h
  | cons t ts ih => exact fun l h => ih _ (ExtOK_tickI t h)

theorem ExtOK_initialObjects : ExtOK initialObjects := by
  intro o ho
  simp only [initialObjects, List.mem_cons, List.not_mem_nil, or_false] at ho
  rcases ho with rfl | rfl <;> exact ⟨by norm_num, by norm_num⟩

/-- C8 (amended): every object list reachable from the initial scene by any
tick sequence has only objects with positive width and height — with no
assumption on the random draws — and its live ids are pairwise distinct
provided each tick's saturation noise id draws are pairwise distinct.  (If
a tick's draws collide the generated noise ids collide too, see the
counterexample, so the distinctness proviso on the id part is exactly what
the code's random string ids rely on.) -/
theorem reachable_wellformed (ins : List TickInput) :
    (∀ o ∈ runTicks ins initialObjects, 0 < o.width ∧ 0 < o.height) ∧
    ((∀ t ∈ ins, DrawsDistinct t) →
      ((runTicks ins initialObjects).map (fun o => o.id)).Nodup) := by
  constructor
  · exact runTicks_ExtOK ins initialObjects ExtOK_initialObjects
  · intro hnr
    exact (runTicks_WF ins initialObjects hnr WF_initialObjects).1

/-- Witness for C8 at a one-tick saturation run with distinct draws. -/
theorem reachable_wellformed_witness :
    (∀ o ∈ runTicks wfIns initialObjects, 0 < o.width ∧ 0 < o.height) ∧
    (∀ t ∈ wfIns, DrawsDistinct t) ∧
    ((runTicks wfIns initialObjects).map (fun o => o.id)).Nodup := by
  have hh : ∀ t ∈ wfIns, DrawsDistinct t := by
    intro t ht
    simp only [wfIns, List.mem_singleton] at ht
    subst ht
    intro i j hi hj hij hc
    have hc2 : (i : ℚ) = (j : ℚ) := hc
    exact hij (by exact_mod_cast hc2)
  exact ⟨(reachable_wellformed wfIns).1, hh, (reachable_wellformed wfIns).2 hh⟩

/-- Counterexample for C8: a saturation tick whose Math.random draws repeat
produces 15 live noise objects all sharing the id `n-0`, so distinct live
objects can share an id. -/
theorem duplicate_noise_ids_possible :
    ((tick AttackType.saturation false 4 800 (fun _ => 0) (fun _ => (0, 0, 0))
        initialObjects).countP (fun o => decide (o.id = ObjId.noiseTag 0))) = 15 ∧
    ¬ ((tick AttackType.saturation false 4 800 (fun _ => 0) (fun _ => (0, 0, 0))
        initialObjects).map (fun o => o.id)).Nodup := by
  constructor
  · norm_num +decide [tick, advanceStep, respawnAll, respawnObj, satStep, mkNoise,
      initialObjects]
  · intro h
    norm_num +decide [tick, advanceStep, respawnAll, respawnObj, satStep, mkNoise,
      initialObjects] at h

/-! ### C9: minDistance semantics of the ray caster -/

theorem minFold_cons (d : ℚ) (l : List ℚ) (acc : ℚ) :
    minFold (d :: l) acc = minFold l (if d < acc then d else acc) := rfl

theorem minFold_le_acc : ∀ (l : List ℚ) (acc : ℚ), minFold l acc ≤ acc := by
  intro l
  induction l with
  | nil => exact fun acc => le_refl acc
  | cons d t ih =>
      intro acc
      rw [minFold_cons]
      refine le_trans (ih _) ?_
      split
      · exact le_of_lt (by assumption)
      · exact le_refl acc

theorem minFold_le_mem :
    ∀ (l : List ℚ) (acc d : ℚ), d ∈ l → minFold l acc ≤ d := by
  intro l
  induction l with
  | nil => intro acc d hd; cases hd
  | cons a t ih =>
      intro acc d hd
      rw [minFold_cons]
      rcases List.mem_cons.mp hd with rfl | hmem
      · refine le_trans (minFold_le_acc _ _) ?_
        split
        · exact le_refl d
        · exact le_of_not_lt (by assumption)
      · exact ih _ d hmem

theorem minFold_mem_or_acc :
    ∀ (l : List ℚ) (acc : ℚ), minFold l acc = acc ∨ minFold l acc ∈ l := by
  intro l
  induction l with
  | nil => exact fun acc => Or.inl rfl
  | cons a t ih =>
      intro acc
      rw [minFold_cons]
      rcases ih (if a < acc then a else acc) with h | h
      · rw [h]
        split
        · exact Or.inr (List.mem_cons_self a t)
        · exact Or.inl rfl
      · exact Or.inr (List.mem_cons_of_mem a h)

theorem lidar_foldl_eq_minFold (attack : AttackType) (range : ℚ)
    (objs : List SimObject) :
    ∀ (rays : List (ℚ × ℚ)) (acc : ℚ),
      rays.foldl (fun a cs => lidarFold a (rayResult attack range cs objs)) acc
        = minFold (hitResults attack range objs rays) acc := by
  intro rays
  induction rays with
  | nil => exact fun acc => rfl
  | cons cs rest ih =>
      intro acc
      rw [List.foldl_cons]
      unfold hitResults
      rw [List.filterMap_cons]
      cases hr : rayResult attack range cs objs with
      | none =>
          show List.foldl (fun a cs => lidarFold a (rayResult attack range cs objs))
              acc rest
            = minFold (List.filterMap (fun cs => rayResult attack range cs objs) rest)
              acc
          exact ih acc
      | some d =>
          show List.foldl (fun a cs => lidarFold a (rayResult attack range cs objs))
              (if d < acc then d else acc) rest
            = minFold
              (d :: List.filterMap (fun cs => rayResult attack range cs objs) rest)
              acc
          rw [minFold_cons]
          exact ih _

theorem rayResult_lt_sentinel (attack : AttackType) (range : ℚ) (cs : ℚ × ℚ)
    (objs : List SimObject) (hc : 0 < cs.1) (hcs : cs.1 ^ 2 + cs.2 ^ 2 = 1)
    (hr0 : 0 ≤ range) (hr1 : range ≤ 600) :
    ∀ d, rayResult attack range cs objs = some d → d < 9999 ^ 2 := by
  intro d hd
  unfold rayResult at hd
  dsimp only [] at hd
  cases hfind : List.find? (rayHitsObj attack (sensorX + cs.1 * range)
      (sensorY + cs.2 * range)) objs with
  | none =>
      rw [hfind] at hd
      cases hd
  | some o =>
      rw [hfind] at hd
      have hhit := List.find?_some hfind
      have hlt : checkX attack o < sensorX + cs.1 * range := by
        unfold rayHitsObj at hhit
        simp only [Bool.and_eq_true, decide_eq_true_eq] at hhit
        exact hhit.1.2
      have hd2 : d = (max sensorX (checkX attack o) - sensorX) ^ 2 +
          ((sensorY + (cs.2 / cs.1) * (max sensorX (checkX attack o) - sensorX))
            - sensorY) ^ 2 := by
        simpa using hd.symm
      set u : ℚ := max sensorX (checkX attack o) - sensorX with hu
      have hcne : cs.1 ≠ 0 := ne_of_gt hc
      have hval : d = u ^ 2 / cs.1 ^ 2 := by
        rw [hd2]
        field_simp
        linear_combination u ^ 2 * hcs
      have hbig : (600 : ℚ) ^ 2 < 9999 ^ 2 := by norm_num
      rcases max_cases sensorX (checkX attack o) with ⟨hm, _⟩ | ⟨hm, hgt⟩
      · have hu0 : u = 0 := by
          rw [hu, hm]
          ring
        rw [hval, hu0]
        norm_num
      · have hupos : 0 < u := by
          rw [hu, hm]
          linarith
        have huc : u < cs.1 * range := by
          rw [hu, hm]
          linarith
        have hsq : u ^ 2 < (cs.1 * range) ^ 2 :=
          pow_lt_pow_left₀ huc (le_of_lt hupos) (by norm_num)
        have hc2 : (0 : ℚ) < cs.1 ^ 2 := by positivity
        have hfinal : d < range ^ 2 := by
          rw [hval, div_lt_iff₀ hc2]
          calc u ^ 2 < (cs.1 * range) ^ 2 := hsq
            _ = range ^ 2 * cs.1 ^ 2 := by ring
        have hrange2 : range ^ 2 ≤ 600 ^ 2 := pow_le_pow_left₀ hr0 hr1 2
        linarith

/-- C9: calculateLidar returns null exactly when no ray registered a hit
this tick; otherwise it returns the minimum over hit rays of the squared
Euclidean distance from the sensor origin to the hit point, so its square
root is the least Euclidean hit distance.  The hypotheses say each ray
direction is a true unit vector into the forward half plane and the range
is within the UI bound 600, which keeps every hit strictly below the 9999
sentinel. -/
theorem calculateLidar_minDistance_spec (attack : AttackType) (range : ℚ)
    (rays : List (ℚ × ℚ)) (objs : List SimObject)
    (hray : ∀ cs ∈ rays, 0 < cs.1 ∧ cs.1 ^ 2 + cs.2 ^ 2 = 1)
    (hr0 : 0 ≤ range) (hr1 : range ≤ 600) :
    (calculateLidar attack range rays objs = none ↔
      ∀ cs ∈ rays, rayResult attack range cs objs = none) ∧
    ∀ m, calculateLidar attack range rays objs = some m →
      m ∈ hitResults attack range objs rays ∧
      ∀ d ∈ hitResults attack range objs rays,
        m ≤ d ∧ Real.sqrt (m : ℝ) ≤ Real.sqrt (d : ℝ) := by
  have hbound : ∀ d ∈ hitResults attack range objs rays, d < 9999 ^ 2 := by
    intro d hd
    obtain ⟨cs, hmem, hres⟩ := List.mem_filterMap.mp hd
    exact rayResult_lt_sentinel attack range cs objs (hray cs hmem).1
      (hray cs hmem).2 hr0 hr1 d hres
  have hcal : calculateLidar attack range rays objs =
      (if minFold (hitResults attack range objs rays) (9999 ^ 2) = 9999 ^ 2 then
        none
      else some (minFold (hitResults attack range objs rays) (9999 ^ 2))) := by
    unfold calculateLidar
    rw [lidar_foldl_eq_minFold]
  by_cases hnil : hitResults attack range objs rays = []
  · have hm0 : minFold (hitResults attack range objs rays) (9999 ^ 2) = 9999 ^ 2 := by
      rw [hnil]
      rfl
    have hnone : calculateLidar attack range rays objs = none := by
      rw [hcal, if_pos hm0]
    constructor
    · constructor
      · intro _
        exact List.filterMap_eq_nil_iff.mp hnil
      · intro _
        exact hnone
    · intro m hm
      rw [hnone] at hm
      cases hm
  · obtain ⟨d0, hd0⟩ := List.exists_mem_of_ne_nil _ hnil
    have hle0 : minFold (hitResults attack range objs rays) (9999 ^ 2) ≤ d0 :=
      minFold_le_mem _ _ _ hd0
    have hm0lt : minFold (hitResults attack range objs rays) (9999 ^ 2) < 9999 ^ 2 :=
      lt_of_le_of_lt hle0 (hbound d0 hd0)
    have hm0ne : minFold (hitResults attack range objs rays) (9999 ^ 2) ≠ 9999 ^ 2 :=
      ne_of_lt hm0lt
    have hsome : calculateLidar attack range rays objs =
        some (minFold (hitResults attack range objs rays) (9999 ^ 2)) := by
      rw [hcal, if_neg hm0ne]
    have hmem0 : minFold (hitResults attack range objs rays) (9999 ^ 2) ∈
        hitResults attack range objs rays := by
      rcases minFold_mem_or_acc (hitResults attack range objs rays) (9999 ^ 2) with h | h
      · exact absurd h hm0ne
      · exact h
    constructor
    · constructor
      · intro hn
        rw [hsome] at hn
        cases hn
      · intro hall
        exact absurd (List.filterMap_eq_nil_iff.mpr hall) hnil
    · intro m hm
      rw [hsome] at hm
      have hm2 : minFold (hitResults attack range objs rays) (9999 ^ 2) = m :=
        Option.some.inj hm
      subst hm2
      refine ⟨hmem0, fun d hd => ?_⟩
      have hle : minFold (hitResults attack range objs rays) (9999 ^ 2) ≤ d :=
        minFold_le_mem _ _ _ hd
      exact ⟨hle, Real.sqrt_le_sqrt (by exact_mod_cast hle)⟩

/-- Witness for C9: a single horizontal unit ray, range 200, against one
pedestrian ahead of the sensor. -/
theorem calculateLidar_minDistance_spec_witness :
    (∀ cs ∈ [((1 : ℚ), (0 : ℚ))], 0 < cs.1 ∧ cs.1 ^ 2 + cs.2 ^ 2 = 1) ∧
    (0 : ℚ) ≤ 200 ∧ (200 : ℚ) ≤ 600 ∧
    ((calculateLidar AttackType.none 200 [(1, 0)] [pedObj] = none ↔
        ∀ cs ∈ [((1 : ℚ), (0 : ℚ))],
          rayResult AttackType.none 200 cs [pedObj] = none) ∧
      ∀ m, calculateLidar AttackType.none 200 [(1, 0)] [pedObj] = some m →
        m ∈ hitResults AttackType.none 200 [pedObj] [(1, 0)] ∧
        ∀ d ∈ hitResults AttackType.none 200 [pedObj] [(1, 0)],
          m ≤ d ∧ Real.sqrt (m : ℝ) ≤ Real.sqrt (d : ℝ)) :=
  ⟨by norm_num, by norm_num, by norm_num,
    calculateLidar_minDistance_spec AttackType.none 200 [(1, 0)] [pedObj]
      (by norm_num) (by norm_num) (by norm_num)⟩

end LidarSim
